import Mathlib

/-!
Formal model of the in-exam session controller of the Quantum Scholar
proctoring client (`src/test_window.py`, with endpoint constants from
`src/config.py`).

The Python class `TestWindow` is shallowly embedded as follows.

* The parsed-JSON layer (`json.loads` result, `dict.get`, iteration) is
  modelled by the `Json` type together with `pyGetD` (Python `dict.get`
  with a default, raising `AttributeError` on a non-dict receiver) and
  `pyIterElems` (Python iteration, raising `TypeError` on non-iterables).
  `constructModel` is the model-building prefix of `TestWindow.__init__`
  (source lines 62-96); pure widget construction is outside the model.

* The well-typed in-session state is the structure `TW`; the dynamic
  answer values (`int` / `set[int]` / `str`) become the tagged type `Ans`,
  with Python's `set[int]` modelled as a duplicate-free list (`PySet`);
  every observation the source makes of a set (membership, emptiness,
  `sorted(list(s))`) is order-insensitive, so this representation is
  faithful.  Python's `str.strip` is `pyStrip`.

* Methods become state transformers `TW → ... → TW × List Eff`, where
  `Eff` records the externally visible effects the claims talk about
  (invoking `save_answer`, reaching `requests.post`, `QGuiApplication.quit`,
  `QTimer.singleShot(500, self.end_test)`, showing a violation warning).
  Calls that only touch widgets (label updates, message boxes, button
  highlighting, enabling/disabling the UI) are noted in comments and
  dropped.  Wall-clock values from `time.monotonic()` are modelled as
  rationals; network outcomes of `requests.post` as the oracle
  `NetOutcome`.
-/

/-! ### Parsed-JSON layer (for `TestWindow.__init__`) -/

/-- A parsed Python JSON value (`json.loads` output). -/
inductive Json where
  | jnull
  | jbool (b : Bool)
  | jnum (n : Int)
  | jstr (s : String)
  | jarr (elems : List Json)
  | jobj (fields : List (String × Json))

/-- Python `receiver.get(key, dflt)`: returns the mapped value (or the
default) on a dict, and raises `AttributeError` on any other value. -/
def pyGetD (j : Json) (key : String) (dflt : Json) : Except String Json :=
  match j with
  | .jobj kvs => .ok ((kvs.lookup key).getD dflt)
  | _ => .error "AttributeError: get"

/-- Python `for x in j`: lists give their elements, strings their
one-character substrings, dicts their keys; other values raise
`TypeError`. -/
def pyIterElems (j : Json) : Except String (List Json) :=
  match j with
  | .jarr xs => .ok xs
  | .jstr s => .ok (s.data.map (fun c => Json.jstr (String.mk [c])))
  | .jobj kvs => .ok (kvs.map (fun kv => Json.jstr kv.1))
  | _ => .error "TypeError: not iterable"

/-- The model fields `TestWindow.__init__` computes from the incoming
document (source lines 69-73). -/
structure InitModelJ where
  sections : Json
  test_title : Json
  section_titles : List Json
  selected_section : Nat
  selected_question : Nat

/-- The model-building prefix of `TestWindow.__init__` (source lines
62-73).  The argument is the outcome of `json.loads(question_json_string)`:
`none` when parsing raised (the `except` arm substitutes
`{"title": "Test", "sections": []}`), `some v` when it returned `v`.
Each subsequent line is translated in source order:
`self.sections = question_json.get("sections", [])`,
`self.test_title = question_json.get("title", "Test")`,
`self.section_titles = [s.get("title", "Section") for s in self.sections]`,
then the two index fields start at 0. -/
def constructModel (parsed : Option Json) : Except String InitModelJ :=
  let qj := match parsed with
    | some v => v
    | none => Json.jobj [("title", Json.jstr "Test"), ("sections", Json.jarr [])]
  match pyGetD qj "sections" (Json.jarr []) with
  | .error e => .error e
  | .ok sectionsJ =>
    match pyGetD qj "title" (Json.jstr "Test") with
    | .error e => .error e
    | .ok titleJ =>
      match pyIterElems sectionsJ with
      | .error e => .error e
      | .ok elems =>
        match elems.mapM (fun s => pyGetD s "title" (Json.jstr "Section")) with
        | .error e => .error e
        | .ok titles =>
          .ok { sections := sectionsJ, test_title := titleJ,
                section_titles := titles, selected_section := 0,
                selected_question := 0 }

/-! ### Well-typed session state -/

/-- Python `set[int]`, represented by its (duplicate-free) element list. -/
def PySet : Type := { l : List Nat // l.Nodup }

instance : DecidableEq PySet := fun a b =>
  decidable_of_iff (a.val = b.val) Subtype.ext_iff.symm

/-- Python `set.add`: no-op when the element is present. -/
def PySet.add (s : PySet) (n : Nat) : PySet :=
  if h : n ∈ s.val then s else ⟨n :: s.val, List.nodup_cons.mpr ⟨h, s.prop⟩⟩

/-- Python `set.discard`: removes the element when present. -/
def PySet.discard (s : PySet) (n : Nat) : PySet :=
  ⟨s.val.erase n, s.prop.erase n⟩

/-- Python `set()`. -/
def PySet.emptySet : PySet := ⟨[], List.nodup_nil⟩

/-- A stored answer value: `int` for mcq (1-based option index),
`set[int]` for msq, `str` for open-ended (source lines 76-80). -/
inductive Ans where
  | anInt (n : Nat)
  | anSet (s : PySet)
  | anStr (t : String)
deriving DecidableEq

/-- One question of the loaded exam document (fields `type`,
`questionText`, `options`). -/
structure Ques where
  qtype : String
  questionText : String
  options : List String
deriving DecidableEq

/-- One section of the loaded exam document (fields `title`,
`questions`). -/
structure Sec where
  title : String
  questions : List Ques
deriving DecidableEq

/-- Python `str.strip()`: drop leading and trailing whitespace. -/
def pyStrip (s : String) : String :=
  String.mk (((s.data.dropWhile Char.isWhitespace).reverse.dropWhile
    Char.isWhitespace).reverse)

/-- The mutable state of a `TestWindow` (non-widget fields set in
`__init__`, source lines 55-96).  The two-level answer dict
`self.answers` is modelled through its only read pattern
`self.answers.get(s_idx, {}).get(q_idx)`, as a map from the two indices
to an optional stored value. -/
structure TW where
  email : String
  token : String
  attempt_id : Int
  remaining_seconds : Int
  sections : List Sec
  test_title : String
  selected_section : Nat
  selected_question : Nat
  answers : Nat → Nat → Option Ans
  timer_started : Bool
  timer_active : Bool
  ending : Bool
  violation_count : Nat
  violation_limit : Nat
  last_violation_ts : ℚ

/-- Externally visible effects of the controller's methods. -/
inductive Eff where
  | saveCall
  | httpPost (url : String)
  | quitApp
  | scheduleEnd (delayMs : Nat)
  | showWarning (reason : String)
deriving DecidableEq

/-- An outcome oracle for one `requests.post` call. -/
inductive NetOutcome where
  | ok
  | httpError (status : Nat) (msg : String)
  | netError (msg : String)
deriving DecidableEq

/-- The field initialisation of `TestWindow.__init__` for a well-typed
document (source lines 55-96): `remaining_seconds = max(0,
int(duration_minutes)) * 60`, both navigation indices 0, empty answer
dict, no countdown timer yet, `_ending = False`, `violation_count = 0`,
`violation_limit = 3`, `_last_violation_ts = 0.0`. -/
def initTW (email token : String) (attempt_id : Int) (sections : List Sec)
    (test_title : String) (duration_minutes : Int) : TW :=
  { email := email, token := token, attempt_id := attempt_id,
    remaining_seconds := max 0 duration_minutes * 60,
    sections := sections, test_title := test_title,
    selected_section := 0, selected_question := 0,
    answers := fun _ _ => none,
    timer_started := false, timer_active := false, ending := false,
    violation_count := 0, violation_limit := 3, last_violation_ts := 0 }

/-! ### Answer store writers (source lines 531-547) -/

/-- Write one slot of the two-level answer dict
(`self.answers.setdefault(section_idx, {})[question_idx] = a`). -/
def setAns (answers : Nat → Nat → Option Ans) (s q : Nat) (a : Ans) :
    Nat → Nat → Option Ans :=
  fun s' q' => if s' = s ∧ q' = q then some a else answers s' q'

/-- `TestWindow._on_mcq_toggled`: stores the 1-based option when the
radio button becomes checked; unchecking stores nothing. -/
def on_mcq_toggled (tw : TW) (section_idx question_idx option_1based : Nat)
    (checked : Bool) : TW :=
  if checked then
    { tw with answers := setAns tw.answers section_idx question_idx (Ans.anInt option_1based) }
  else tw

/-- `TestWindow._on_msq_changed`: fetches the current set (a fresh empty
set when the slot is absent or not a set), adds or discards the option,
and stores the set back. -/
def on_msq_changed (tw : TW) (section_idx question_idx option_1based : Nat)
    (checked : Bool) : TW :=
  let current : PySet := match tw.answers section_idx question_idx with
    | some (Ans.anSet s0) => s0
    | _ => PySet.emptySet
  let current' := if checked then current.add option_1based
                  else current.discard option_1based
  { tw with answers := setAns tw.answers section_idx question_idx (Ans.anSet current') }

/-- `TestWindow._set_open_answer`: overwrites the slot with the text,
including with the empty string. -/
def set_open_answer (tw : TW) (section_idx question_idx : Nat) (text : String) : TW :=
  { tw with answers := setAns tw.answers section_idx question_idx (Ans.anStr text) }

/-! ### Navigation (source lines 395-402) -/

/-- `TestWindow.select_section`: switches to the given section and
resets the question index to 0 (the button re-highlighting and the two
repopulation calls only touch widgets). -/
def select_section (tw : TW) (section_idx : Nat) : TW :=
  { tw with selected_section := section_idx, selected_question := 0 }

/-! ### Submission payload (source lines 561-604) -/

/-- One entry of a section's `answers` list in the outbound payload:
`{"questionNumber": n, "CorrectOption": o}` for mcq,
`{"questionNumber": n, "CorrectOptions": l}` for msq,
`{"questionNumber": n, "answer": t}` for open-ended. -/
inductive AnswerEntry where
  | mcqA (questionNumber : Nat) (correctOption : Nat)
  | msqA (questionNumber : Nat) (correctOptions : List Nat)
  | openA (questionNumber : Nat) (answerText : String)
deriving DecidableEq

/-- The `questionNumber` field of a payload entry. -/
def AnswerEntry.qnum : AnswerEntry → Nat
  | .mcqA n _ => n
  | .msqA n _ => n
  | .openA n _ => n

/-- One element of the payload's `sections` list:
`{"sectionId": i, "answers": [...]}`. -/
structure SectionPayload where
  sectionId : Nat
  answers : List AnswerEntry
deriving DecidableEq

/-- The full outbound payload of `_build_answer_payload`. -/
structure Payload where
  email : String
  token : String
  attempt_id : Int
  answerSections : List SectionPayload
deriving DecidableEq

/-- The guarded entry construction for one question in the inner loop of
`_build_answer_payload` (source lines 577-591).  The source tests the
three branches as an `if`/`elif` chain, each conjoining a question-type
test with an `isinstance` test on the stored value (plus non-emptiness
for msq sets and non-blankness for open-ended strings); since the three
(type, tag) combinations are mutually exclusive, testing the type first
and then the tag is the same chain.  `sorted(list(stored))` is
`List.insertionSort (· ≤ ·)` on the set's element list. -/
def entryFor (q_type : String) (stored : Ans) (q_number : Nat) : Option AnswerEntry :=
  if q_type = "mcq" then
    match stored with
    | Ans.anInt n => some (AnswerEntry.mcqA q_number n)
    | _ => none
  else if q_type = "msq" then
    match stored with
    | Ans.anSet s =>
        if s.val ≠ [] then
          some (AnswerEntry.msqA q_number (List.insertionSort (· ≤ ·) s.val))
        else none
    | _ => none
  else if q_type = "open-ended" then
    match stored with
    | Ans.anStr t => if pyStrip t ≠ "" then some (AnswerEntry.openA q_number t) else none
    | _ => none
  else none

/-- The inner loop `for q_idx, q in enumerate(questions)` of
`_build_answer_payload` (source lines 570-591), with the enumeration
index made explicit: a question with no stored answer is skipped
(`continue`), otherwise `entryFor` decides whether an entry is appended. -/
def answersFor (answers : Nat → Nat → Option Ans) (s_idx : Nat) :
    List Ques → Nat → List AnswerEntry
  | [], _ => []
  | q :: rest, q_idx =>
    let tail := answersFor answers s_idx rest (q_idx + 1)
    match answers s_idx q_idx with
    | none => tail
    | some stored =>
      match entryFor q.qtype stored (q_idx + 1) with
      | some e => e :: tail
      | none => tail

/-- The outer loop `for s_idx, section in enumerate(self.sections)` of
`_build_answer_payload` (source lines 565-597): a section is appended,
with 1-based `sectionId`, only when its `answers_list` is non-empty. -/
def sectionsFor (answers : Nat → Nat → Option Ans) :
    List Sec → Nat → List SectionPayload
  | [], _ => []
  | sec :: rest, s_idx =>
    let answersList := answersFor answers s_idx sec.questions 0
    let tail := sectionsFor answers rest (s_idx + 1)
    if answersList ≠ [] then { sectionId := s_idx + 1, answers := answersList } :: tail
    else tail

/-- `TestWindow._build_answer_payload` (source lines 561-604), in
state-transformer form.  The method body only reads `self` fields into
local variables, so the state it returns is the state it received. -/
def build_answer_payload (tw : TW) : Payload × TW :=
  ({ email := tw.email, token := tw.token, attempt_id := tw.attempt_id,
     answerSections := sectionsFor tw.answers tw.sections 0 }, tw)

/-! ### Endpoints (src/config.py) and `save_answer` -/

/-- Attribute lookup on the `Endpoints` class of `src/config.py`
(lines 15-18), parameterised by the computed `API_BASE_URL` value:
only `LOGIN`, `INIT_TEST` and `START_TEST` are defined; any other
attribute name is absent (its access raises `AttributeError`). -/
def endpointsAttr (base : String) (attr : String) : Option String :=
  if attr = "LOGIN" then some (base ++ "/auth/test-portal/login")
  else if attr = "INIT_TEST" then some (base ++ "/test-portal/init")
  else if attr = "START_TEST" then some (base ++ "/test-portal/start")
  else none

/-- `API_BASE_URL` of `src/config.py` (line 12): the `QS_API_BASE_URL`
environment variable, defaulting to `http://localhost:8000`. -/
def apiBaseUrl (env_qs_api_base_url : Option String) : String :=
  env_qs_api_base_url.getD "http://localhost:8000"

/-- `TestWindow.save_answer` (source lines 421-440).  It first builds
the payload, then enters the `try` block: `self.setDisabled(True)` is
widget-only, and `requests.post(Endpoints.UPDATE_ATTEMPT, ...)` begins
by evaluating the attribute `Endpoints.UPDATE_ATTEMPT`.  When the
attribute is absent that evaluation raises `AttributeError`, which the
`except requests.RequestException` clause does not catch, so after the
`finally` re-enables the UI the exception escapes the method (returned
as `some exc`) and no HTTP request is made.  When the attribute exists,
the post happens and every response branch only shows a message box, so
the method returns normally. -/
def save_answer (base : String) (tw : TW) (net : NetOutcome) :
    (TW × List Eff) × Option String :=
  let tw := (build_answer_payload tw).2
  match endpointsAttr base "UPDATE_ATTEMPT" with
  | none => ((tw, [Eff.saveCall]), some "AttributeError: UPDATE_ATTEMPT")
  | some url =>
    match net with
    | NetOutcome.ok => ((tw, [Eff.saveCall, Eff.httpPost url]), none)
    | NetOutcome.httpError _ _ => ((tw, [Eff.saveCall, Eff.httpPost url]), none)
    | NetOutcome.netError _ => ((tw, [Eff.saveCall, Eff.httpPost url]), none)

/-! ### Ending the session (source lines 322-332) -/

/-- `TestWindow.end_test`: returns immediately when `self._ending` is
already set; otherwise sets the flag, runs `self.save_answer()` inside
`try`, and the `finally` block runs `QGuiApplication.quit()` regardless
of the save outcome (an exception escaping `save_answer` propagates only
after `quit()` has run, so it is dropped from the model's state). -/
def end_test (base : String) (tw : TW) (net : NetOutcome) : TW × List Eff :=
  if tw.ending then (tw, [])
  else
    let tw1 := { tw with ending := true }
    let r := save_answer base tw1 net
    (r.1.1, r.1.2 ++ [Eff.quitApp])

/-- A sequence of `end_test` invocations (one network oracle each),
with the emitted effects concatenated in order. -/
def runEndTest (base : String) (tw : TW) : List NetOutcome → TW × List Eff
  | [] => (tw, [])
  | net :: rest =>
    let r1 := end_test base tw net
    let r2 := runEndTest base r1.1 rest
    (r2.1, r1.2 ++ r2.2)

/-! ### Violations (source lines 277-299) -/

/-- `TestWindow._record_violation`: events within 0.75 s of the previous
recorded violation are dropped before any state change; otherwise the
timestamp and counter are updated, the warning banner is shown (the
banner's text interpolates count, limit and reason; the model's effect
carries the reason, and the 3-second auto-hide is widget-only), and when
the counter has reached `violation_limit` a
`QTimer.singleShot(500, self.end_test)` is scheduled. -/
def record_violation (tw : TW) (now : ℚ) (reason : String) : TW × List Eff :=
  if now - tw.last_violation_ts < 3/4 then (tw, [])
  else
    let tw1 := { tw with last_violation_ts := now,
                         violation_count := tw.violation_count + 1 }
    if tw1.violation_count ≥ tw1.violation_limit then
      (tw1, [Eff.showWarning reason, Eff.scheduleEnd 500])
    else (tw1, [Eff.showWarning reason])

/-- A sequence of violation events (timestamp and reason each), with the
emitted effects concatenated in order. -/
def runViolations (tw : TW) : List (ℚ × String) → TW × List Eff
  | [] => (tw, [])
  | ev :: rest =>
    let r1 := record_violation tw ev.1 ev.2
    let r2 := runViolations r1.1 rest
    (r2.1, r1.2 ++ r2.2)

/-! ### Forbidden keys (source lines 240-275) -/

/-- The Qt key codes the handler distinguishes; every other key is
`other`. -/
inductive QtKey where
  | key_tab
  | key_f4
  | key_meta
  | key_super_l
  | key_super_r
  | key_escape
  | key_alt
  | other (code : Nat)
deriving DecidableEq

/-- The keyboard modifiers the handler reads from `event.modifiers()`. -/
structure Mods where
  alt : Bool
  ctrl : Bool
  shift : Bool
deriving DecidableEq

/-- `TestWindow._handle_forbidden_key`: the `if`/`return` chain in
source order; a matched combination records a violation and returns
`True` (the event is swallowed), otherwise the method returns `False`. -/
def handle_forbidden_key (tw : TW) (now : ℚ) (key : QtKey) (mods : Mods) :
    (TW × List Eff) × Bool :=
  if key = QtKey.key_tab ∧ mods.alt = true then
    (record_violation tw now "Alt+Tab detected", true)
  else if key = QtKey.key_f4 ∧ mods.alt = true then
    (record_violation tw now "Alt+F4 detected", true)
  else if key = QtKey.key_meta ∨ key = QtKey.key_super_l ∨ key = QtKey.key_super_r then
    (record_violation tw now "Windows key detected", true)
  else if key = QtKey.key_escape ∧ mods.ctrl = true then
    (record_violation tw now "Ctrl+Esc detected", true)
  else if key = QtKey.key_escape ∧ mods.ctrl = true ∧ mods.shift = true then
    (record_violation tw now "Ctrl+Shift+Esc detected", true)
  else if key = QtKey.key_alt then
    (record_violation tw now "Alt key detected", true)
  else ((tw, []), false)

/-! ### Countdown timer (source lines 302-320) -/

/-- `TestWindow._init_countdown_timer`: the initial label update is
widget-only; when `remaining_seconds <= 0` no `QTimer` is created,
otherwise one is created and started with a 1-second interval. -/
def init_countdown_timer (tw : TW) : TW :=
  if tw.remaining_seconds ≤ 0 then tw
  else { tw with timer_started := true, timer_active := true }

/-- `TestWindow._tick_countdown`: when `remaining_seconds > 0` it is
decremented (the label update is widget-only); when the decrement lands
on 0 and the timer object exists, the timer is stopped and
`self.end_test()` runs. -/
def tick_countdown (base : String) (tw : TW) (net : NetOutcome) : TW × List Eff :=
  if tw.remaining_seconds > 0 then
    let tw1 := { tw with remaining_seconds := tw.remaining_seconds - 1 }
    if tw1.remaining_seconds = 0 ∧ tw1.timer_started = true then
      let tw2 := { tw1 with timer_active := false }
      end_test base tw2 net
    else (tw1, [])
  else (tw, [])

/-- A run of `k` timer-tick deliveries (the tick handler is a no-op once
`remaining_seconds` is 0, matching the stopped `QTimer`), with the
emitted effects concatenated in order. -/
def runTicks (base : String) (tw : TW) (net : NetOutcome) : Nat → TW × List Eff
  | 0 => (tw, [])
  | k + 1 =>
    let r1 := tick_countdown base tw net
    let r2 := runTicks base r1.1 net k
    (r2.1, r1.2 ++ r2.2)

/-! ### Shared helper lemmas -/

/-- The `Endpoints` class defines no `UPDATE_ATTEMPT` attribute. -/
lemma endpointsAttr_update_attempt (base : String) :
    endpointsAttr base "UPDATE_ATTEMPT" = none := rfl

/-- A throttled event leaves the state untouched and emits nothing. -/
lemma record_violation_throttled {tw : TW} {t : ℚ}
    (h : t - tw.last_violation_ts < 3/4) (reason : String) :
    record_violation tw t reason = (tw, []) := by
  unfold record_violation
  rw [if_pos h]

/-- A recorded event updates the timestamp and increments the counter,
whatever the limit branch does to the effect list. -/
lemma record_violation_recorded {tw : TW} {t : ℚ}
    (h : ¬ t - tw.last_violation_ts < 3/4) (reason : String) :
    (record_violation tw t reason).1
      = { tw with last_violation_ts := t,
                  violation_count := tw.violation_count + 1 } := by
  unfold record_violation
  rw [if_neg h]
  dsimp only
  split_ifs <;> rfl

/-- The effect list of `_record_violation` is one of three concrete
lists. -/
lemma record_violation_effects (tw : TW) (t : ℚ) (reason : String) :
    (record_violation tw t reason).2 = []
    ∨ (record_violation tw t reason).2 = [Eff.showWarning reason]
    ∨ (record_violation tw t reason).2
        = [Eff.showWarning reason, Eff.scheduleEnd 500] := by
  unfold record_violation
  dsimp only
  split_ifs <;> simp

/-- Any warning effect emitted by `_record_violation` carries the reason
it was invoked with. -/
lemma record_violation_warning_mem {tw : TW} {t : ℚ} {reason r : String}
    (h : Eff.showWarning r ∈ (record_violation tw t reason).2) : r = reason := by
  rcases record_violation_effects tw t reason with he | he | he <;> rw [he] at h <;> simp_all

/-- A second `end_test` call is a no-op. -/
lemma end_test_already_ending (base : String) (net : NetOutcome) {tw : TW}
    (h : tw.ending = true) : end_test base tw net = (tw, []) := by
  simp [end_test, h]

/-- The first `end_test` call sets the flag, invokes `save_answer` once
(which never reaches `requests.post`, the endpoint attribute being
absent) and quits regardless. -/
lemma end_test_first (base : String) (net : NetOutcome) {tw : TW}
    (h : tw.ending = false) :
    end_test base tw net = ({ tw with ending := true },
      [Eff.saveCall, Eff.quitApp]) := by
  simp [end_test, h, save_answer, build_answer_payload, endpointsAttr_update_attempt]

/-! ### C9: `select_section` resets the question index -/

/-- C9: for every state and every section index, `select_section i` sets
the current section to `i` and unconditionally resets the current
question index to 0. -/
theorem select_section_resets_question (tw : TW) (section_idx : Nat) :
    (select_section tw section_idx).selected_section = section_idx
    ∧ (select_section tw section_idx).selected_question = 0 :=
  ⟨rfl, rfl⟩

/-! ### C8: `_build_answer_payload` is a pure read -/

/-- C8: `_build_answer_payload` is a pure read of the current state: it
returns the state it received unchanged (the source method assigns to no
`self` field), and calling it again on that state yields an identical
payload. -/
theorem build_answer_payload_pure (tw : TW) :
    (build_answer_payload tw).2 = tw
    ∧ (build_answer_payload ((build_answer_payload tw).2)).1
        = (build_answer_payload tw).1 :=
  ⟨rfl, rfl⟩

/-! ### C7: `save_answer` and the missing endpoint -/

/-- C7 (code evaluated at the failing point): `config.py` defines no
`UPDATE_ATTEMPT` endpoint, so `save_answer` raises `AttributeError`
inside its `try` block — before any HTTP request — for every state and
every network oracle, and no `requests.post` effect is ever emitted. -/
theorem save_answer_missing_endpoint :
    (∀ base : String, endpointsAttr base "UPDATE_ATTEMPT" = none)
    ∧ (∀ (base : String) (tw : TW) (net : NetOutcome),
        save_answer base tw net
          = ((tw, [Eff.saveCall]), some "AttributeError: UPDATE_ATTEMPT"))
    ∧ (∀ (base : String) (tw : TW) (net : NetOutcome) (url : String),
        Eff.httpPost url ∉ (save_answer base tw net).1.2) := by
  refine ⟨fun _ => rfl, fun _ _ _ => rfl, ?_⟩
  intro base tw net url
  simp [save_answer, build_answer_payload, endpointsAttr_update_attempt]

/-! ### C10: the Ctrl+Shift+Esc branch is shadowed -/

/-- C10: a key event with key Escape and both Control and Shift held is
handled by the earlier Ctrl+Esc branch (recording reason "Ctrl+Esc
detected"), and no input whatsoever can make the handler record the
"Ctrl+Shift+Esc detected" reason: that branch is unreachable. -/
theorem ctrl_shift_esc_branch_shadowed :
    (∀ (tw : TW) (now : ℚ) (mods : Mods), mods.ctrl = true → mods.shift = true →
      handle_forbidden_key tw now QtKey.key_escape mods
        = (record_violation tw now "Ctrl+Esc detected", true))
    ∧ ∀ (tw : TW) (now : ℚ) (key : QtKey) (mods : Mods),
        Eff.showWarning "Ctrl+Shift+Esc detected"
          ∉ (handle_forbidden_key tw now key mods).1.2 := by
  constructor
  · intro tw now mods hc _
    simp [handle_forbidden_key, hc]
  · intro tw now key mods h
    unfold handle_forbidden_key at h
    split_ifs at h with h1 h2 h3 h4 h5 h6
    · exact absurd (record_violation_warning_mem h) (by decide)
    · exact absurd (record_violation_warning_mem h) (by decide)
    · exact absurd (record_violation_warning_mem h) (by decide)
    · exact absurd (record_violation_warning_mem h) (by decide)
    · exact h4 ⟨h5.1, h5.2.1⟩
    · exact absurd (record_violation_warning_mem h) (by decide)
    · simp at h

/-- A tiny concrete state for witnesses: the controller as constructed
for an empty exam with zero duration. -/
def twEx : TW := initTW "user@example.com" "tok" 7 [] "Test" 0

/-- Witness for C10 at a concrete input: Escape with Control and Shift
both held lands in the Ctrl+Esc branch. -/
theorem ctrl_shift_esc_branch_shadowed_witness :
    (Mods.mk false true true).ctrl = true
    ∧ (Mods.mk false true true).shift = true
    ∧ handle_forbidden_key twEx 0 QtKey.key_escape (Mods.mk false true true)
        = (record_violation twEx 0 "Ctrl+Esc detected", true) :=
  ⟨rfl, rfl, ctrl_shift_esc_branch_shadowed.1 twEx 0 (Mods.mk false true true) rfl rfl⟩

/-! ### C5: the 0.75-second throttle -/

/-- C5: an event strictly less than 0.75 s after the previous recorded
violation is dropped (state untouched, nothing counted or displayed); an
event 0.75 s or more after it is recorded (counter incremented,
timestamp updated, warning shown); in particular two events 0.5 s apart
count as one violation and two events 1.0 s apart count as two. -/
theorem violation_throttle (tw : TW) (t : ℚ) (reason : String) :
    (t - tw.last_violation_ts < 3/4 → record_violation tw t reason = (tw, []))
    ∧ (3/4 ≤ t - tw.last_violation_ts →
        (record_violation tw t reason).1.violation_count = tw.violation_count + 1
        ∧ (record_violation tw t reason).1.last_violation_ts = t
        ∧ Eff.showWarning reason ∈ (record_violation tw t reason).2)
    ∧ (∀ r2 : String, 3/4 ≤ t - tw.last_violation_ts →
        (runViolations tw [(t, reason), (t + 1/2, r2)]).1.violation_count
          = tw.violation_count + 1
        ∧ (runViolations tw [(t, reason), (t + 1, r2)]).1.violation_count
          = tw.violation_count + 2) := by
  have hnotlt : 3/4 ≤ t - tw.last_violation_ts → ¬ t - tw.last_violation_ts < 3/4 :=
    fun h => not_lt.mpr h
  refine ⟨fun h => record_violation_throttled h reason, fun h => ?_, fun r2 h => ?_⟩
  · rw [record_violation_recorded (hnotlt h) reason]
    refine ⟨rfl, rfl, ?_⟩
    rcases record_violation_effects tw t reason with he | he | he <;>
      rw [he] <;> first
      | · exfalso
          unfold record_violation at he
          rw [if_neg (hnotlt h)] at he
          dsimp only at he
          split_ifs at he
      | simp
  · have h1 : (record_violation tw t reason).1
        = { tw with last_violation_ts := t,
                    violation_count := tw.violation_count + 1 } :=
      record_violation_recorded (hnotlt h) reason
    constructor
    · show (runViolations (record_violation tw t reason).1 [(t + 1/2, r2)]).1.violation_count
        = tw.violation_count + 1
      rw [h1]
      have hdrop : (t + 1/2) - t < 3/4 := by norm_num
      show (runViolations (record_violation
          { tw with last_violation_ts := t,
                    violation_count := tw.violation_count + 1 } (t + 1/2) r2).1 []).1.violation_count
        = tw.violation_count + 1
      rw [record_violation_throttled hdrop r2]
      rfl
    · show (runViolations (record_violation tw t reason).1 [(t + 1, r2)]).1.violation_count
        = tw.violation_count + 1 + 1
      rw [h1]
      have hrec : ¬ ((t + 1) - t < 3/4) := by norm_num
      show (runViolations (record_violation
          { tw with last_violation_ts := t,
                    violation_count := tw.violation_count + 1 } (t + 1) r2).1 []).1.violation_count
        = tw.violation_count + 1 + 1
      rw [record_violation_recorded hrec r2]
      rfl

/-- Witness for C5 at concrete inputs: from the freshly constructed
state (previous recorded timestamp 0), an event at t = 1/2 is dropped,
and from a recorded event at t = 10, a follower at 10.5 is absorbed
while a follower at 11 is counted. -/
theorem violation_throttle_witness :
    ((1/2 : ℚ) - twEx.last_violation_ts < 3/4
      ∧ record_violation twEx (1/2) "Application switched or unfocused" = (twEx, []))
    ∧ ((3/4 : ℚ) ≤ 10 - twEx.last_violation_ts
      ∧ (runViolations twEx [(10, "Alt+Tab detected"), (10 + 1/2, "Alt+Tab detected")]).1.violation_count
          = twEx.violation_count + 1
      ∧ (runViolations twEx [(10, "Alt+Tab detected"), (10 + 1, "Alt+Tab detected")]).1.violation_count
          = twEx.violation_count + 2) := by
  have h1 : (1/2 : ℚ) - twEx.last_violation_ts < 3/4 := by norm_num [twEx, initTW]
  have h2 : (3/4 : ℚ) ≤ 10 - twEx.last_violation_ts := by norm_num [twEx, initTW]
  exact ⟨⟨h1, (violation_throttle twEx (1/2) "Application switched or unfocused").1 h1⟩,
         ⟨h2, (violation_throttle twEx 10 "Alt+Tab detected").2.2 "Alt+Tab detected" h2⟩⟩

/-! ### C2: `end_test` is idempotent -/

/-- Once the terminal flag is set, any further `end_test` calls leave
the state untouched and emit nothing. -/
lemma runEndTest_ending (base : String) {tw : TW} (h : tw.ending = true) :
    ∀ nets : List NetOutcome, runEndTest base tw nets = (tw, []) := by
  intro nets
  induction nets with
  | nil => rfl
  | cons net rest ih =>
      show (let r1 := end_test base tw net
            let r2 := runEndTest base r1.1 rest
            (r2.1, r1.2 ++ r2.2)) = (tw, [])
      rw [end_test_already_ending base net h]
      dsimp only
      rw [ih]
      rfl

/-- C2: `end_test` is idempotent: over any sequence of calls from a
non-ending state, only the first call performs the final save and quits
(exactly one `save_answer` invocation and one `quit`, whatever each
call's network outcome — so termination proceeds even when the final
save fails), the terminal flag is set, and any call on a state whose
flag is already set is a no-op. -/
theorem end_test_idempotent :
    (∀ (base : String) (tw : TW) (nets : List NetOutcome), tw.ending = false →
      (runEndTest base tw nets).2.count Eff.saveCall = min nets.length 1
      ∧ (runEndTest base tw nets).2.count Eff.quitApp = min nets.length 1
      ∧ (nets ≠ [] → (runEndTest base tw nets).1.ending = true))
    ∧ (∀ (base : String) (tw : TW) (net : NetOutcome), tw.ending = true →
      end_test base tw net = (tw, [])) := by
  constructor
  · intro base tw nets h
    cases nets with
    | nil => exact ⟨rfl, rfl, fun hne => absurd rfl hne⟩
    | cons net rest =>
        have hrun : runEndTest base tw (net :: rest)
            = ({ tw with ending := true }, [Eff.saveCall, Eff.quitApp]) := by
          show (let r1 := end_test base tw net
                let r2 := runEndTest base r1.1 rest
                (r2.1, r1.2 ++ r2.2)) = _
          rw [end_test_first base net h]
          dsimp only
          rw [runEndTest_ending base rfl rest]
          rfl
        rw [hrun]
        have hc1 : List.count Eff.saveCall [Eff.saveCall, Eff.quitApp] = 1 := rfl
        have hc2 : List.count Eff.quitApp [Eff.saveCall, Eff.quitApp] = 1 := rfl
        refine ⟨by rw [hc1]; simp, by rw [hc2]; simp, fun _ => rfl⟩
  · exact fun base tw net h => end_test_already_ending base net h

/-- Witness for C2 at concrete inputs: two `end_test` calls (one
succeeding oracle, one failing oracle) from the fresh state perform
exactly one save invocation and one quit, and a call on an
already-ending state is a no-op. -/
theorem end_test_idempotent_witness :
    (twEx.ending = false
      ∧ (runEndTest "http://localhost:8000" twEx
          [NetOutcome.ok, NetOutcome.netError "down"]).2.count Eff.saveCall
        = min 2 1
      ∧ (runEndTest "http://localhost:8000" twEx
          [NetOutcome.ok, NetOutcome.netError "down"]).2.count Eff.quitApp
        = min 2 1)
    ∧ ((TW.ending { twEx with ending := true } = true)
      ∧ end_test "http://localhost:8000" { twEx with ending := true } NetOutcome.ok
          = ({ twEx with ending := true }, [])) := by
  have h := end_test_idempotent.1 "http://localhost:8000" twEx
    [NetOutcome.ok, NetOutcome.netError "down"] rfl
  exact ⟨⟨rfl, h.1, h.2.1⟩,
         ⟨rfl, end_test_idempotent.2 "http://localhost:8000" { twEx with ending := true }
            NetOutcome.ok rfl⟩⟩

/-! ### C4: the strike limit forces termination -/

/-- The scheduling invariant of `_record_violation` runs: with the limit
fixed at 3, the number of `QTimer.singleShot(500, end_test)` effects
emitted over a run equals the growth of the truncated counter
`violation_count - 2`, and the counter never decreases. -/
lemma runViolations_schedule_invariant :
    ∀ (events : List (ℚ × String)) (tw : TW), tw.violation_limit = 3 →
      (runViolations tw events).1.violation_limit = 3
      ∧ tw.violation_count ≤ (runViolations tw events).1.violation_count
      ∧ (runViolations tw events).2.count (Eff.scheduleEnd 500)
          + (tw.violation_count - 2)
        = (runViolations tw events).1.violation_count - 2 := by
  intro events
  induction events with
  | nil =>
      intro tw h
      refine ⟨h, le_refl _, ?_⟩
      show (0 : Nat) + (tw.violation_count - 2) = tw.violation_count - 2
      omega
  | cons ev rest ih =>
      intro tw h
      show ((runViolations (record_violation tw ev.1 ev.2).1 rest).1.violation_limit = 3)
        ∧ tw.violation_count ≤ (runViolations (record_violation tw ev.1 ev.2).1 rest).1.violation_count
        ∧ ((record_violation tw ev.1 ev.2).2 ++ (runViolations (record_violation tw ev.1 ev.2).1 rest).2).count
            (Eff.scheduleEnd 500) + (tw.violation_count - 2)
          = (runViolations (record_violation tw ev.1 ev.2).1 rest).1.violation_count - 2
      by_cases hthr : ev.1 - tw.last_violation_ts < 3/4
      · rw [record_violation_throttled hthr ev.2]
        obtain ⟨ih1, ih2, ih3⟩ := ih tw h
        exact ⟨ih1, ih2, ih3⟩
      · have hst : (record_violation tw ev.1 ev.2).1
            = { tw with last_violation_ts := ev.1,
                        violation_count := tw.violation_count + 1 } :=
          record_violation_recorded hthr ev.2
        have heff : (record_violation tw ev.1 ev.2).2.count (Eff.scheduleEnd 500)
            = if 3 ≤ tw.violation_count + 1 then 1 else 0 := by
          unfold record_violation
          rw [if_neg hthr]
          dsimp only
          rw [h]
          split_ifs with hcnt
          · rfl
          · rfl
        have h1 : TW.violation_limit { tw with last_violation_ts := ev.1, violation_count := tw.violation_count + 1 } = 3 := h
        rw [hst, List.count_append, heff]
        obtain ⟨ih1, ih2, ih3⟩ := ih _ h1
        refine ⟨ih1, le_trans (Nat.le_succ tw.violation_count) ih2, ?_⟩
        have ih3' : (runViolations { tw with last_violation_ts := ev.1, violation_count := tw.violation_count + 1 } rest).2.count (Eff.scheduleEnd 500) + (tw.violation_count + 1 - 2)
            = (runViolations { tw with last_violation_ts := ev.1, violation_count := tw.violation_count + 1 } rest).1.violation_count - 2 := ih3
        split_ifs with hcnt <;> omega

/-- C4: from the freshly initialised monitor (count 0, limit 3), any
event sequence whose recorded-violation count reaches 3 or more has
scheduled the forced `end_test` at least once, and a sequence with
exactly 3 recorded violations has scheduled it exactly once. -/
theorem violation_limit_forces_end (events : List (ℚ × String)) (tw : TW)
    (hcount : tw.violation_count = 0) (hlimit : tw.violation_limit = 3) :
    ((runViolations tw events).1.violation_count ≥ 3 →
      (runViolations tw events).2.count (Eff.scheduleEnd 500) ≥ 1)
    ∧ ((runViolations tw events).1.violation_count = 3 →
      (runViolations tw events).2.count (Eff.scheduleEnd 500) = 1) := by
  obtain ⟨-, -, h3⟩ := runViolations_schedule_invariant events tw hlimit
  rw [hcount] at h3
  exact ⟨fun h => by omega, fun h => by omega⟩

/-- Witness for C4 at a concrete input: three well-spaced events from
the fresh state yield exactly 3 recorded violations and exactly one
scheduled forced termination. -/
theorem violation_limit_forces_end_witness :
    twEx.violation_count = 0 ∧ twEx.violation_limit = 3
    ∧ (runViolations twEx
        [(1, "Alt+Tab detected"), (2, "Alt+F4 detected"), (3, "Windows key detected")]).1.violation_count = 3
    ∧ (runViolations twEx
        [(1, "Alt+Tab detected"), (2, "Alt+F4 detected"), (3, "Windows key detected")]).2.count
        (Eff.scheduleEnd 500) = 1 := by
  have hc : (runViolations twEx
      [(1, "Alt+Tab detected"), (2, "Alt+F4 detected"), (3, "Windows key detected")]).1.violation_count = 3 := by
    norm_num +decide [runViolations, record_violation, twEx, initTW]
  exact ⟨rfl, rfl, hc,
    (violation_limit_forces_end
      [(1, "Alt+Tab detected"), (2, "Alt+F4 detected"), (3, "Windows key detected")]
      twEx rfl rfl).2 hc⟩

/-! ### C3: construction and malformed documents -/

/-- C3 (counterexample): the string `"[]"` is valid JSON, so
`json.loads` succeeds and returns a list; the very next line
`question_json.get("sections", [])` then raises `AttributeError` —
construction fails instead of degrading to the empty exam. -/
theorem construct_fails_on_json_array :
    constructModel (some (Json.jarr [])) = Except.error "AttributeError: get" := rfl

/-- Title lookups over a list of dicts all succeed. -/
lemma mapM_title_ok :
    ∀ xs : List Json, (∀ x ∈ xs, ∃ fs, x = Json.jobj fs) →
      ∃ l, xs.mapM (fun s => pyGetD s "title" (Json.jstr "Section")) = Except.ok l := by
  intro xs
  induction xs with
  | nil => exact fun _ => ⟨[], rfl⟩
  | cons x rest ih =>
      intro h
      obtain ⟨fs, hx⟩ := h x (List.mem_cons_self x rest)
      obtain ⟨l, hl⟩ := ih (fun y hy => h y (List.mem_cons_of_mem x hy))
      refine ⟨((fs.lookup "title").getD (Json.jstr "Section")) :: l, ?_⟩
      rw [List.mapM_cons, hx, hl]
      rfl

/-- C3 (amended): construction never fails when the document string is
not valid JSON — the fallback produces the empty exam with title "Test"
and zero sections — or when it parses to a JSON object whose `sections`
value (defaulting to `[]`) is an array of objects; a document parsing to
any non-object JSON value (and an object whose `sections` are not an
array of objects) raises instead. -/
theorem construct_total_amended :
    (constructModel none
      = Except.ok { sections := Json.jarr [], test_title := Json.jstr "Test",
                    section_titles := [], selected_section := 0,
                    selected_question := 0 })
    ∧ ∀ (kvs : List (String × Json)) (xs : List Json),
        (kvs.lookup "sections").getD (Json.jarr []) = Json.jarr xs →
        (∀ x ∈ xs, ∃ fs, x = Json.jobj fs) →
        ∃ m, constructModel (some (Json.jobj kvs)) = Except.ok m := by
  refine ⟨rfl, ?_⟩
  intro kvs xs hsec hobj
  obtain ⟨l, hl⟩ := mapM_title_ok xs hobj
  refine ⟨{ sections := Json.jarr xs,
            test_title := (kvs.lookup "title").getD (Json.jstr "Test"),
            section_titles := l, selected_section := 0,
            selected_question := 0 }, ?_⟩
  have e1 : pyGetD (Json.jobj kvs) "sections" (Json.jarr [])
      = Except.ok (Json.jarr xs) := by rw [← hsec]; rfl
  have e2 : pyGetD (Json.jobj kvs) "title" (Json.jstr "Test")
      = Except.ok ((kvs.lookup "title").getD (Json.jstr "Test")) := rfl
  have e3 : pyIterElems (Json.jarr xs) = Except.ok xs := rfl
  simp only [constructModel]
  rw [e1]
  dsimp only
  rw [e2]
  dsimp only
  rw [e3]
  dsimp only
  rw [hl]

/-- Witness for C3's amended statement at a concrete input: a document
object whose `sections` field is an array containing one object
constructs successfully. -/
theorem construct_total_amended_witness :
    ((([("sections", Json.jarr [Json.jobj []])] : List (String × Json)).lookup
        "sections").getD (Json.jarr []) = Json.jarr [Json.jobj []])
    ∧ ∃ m, constructModel (some (Json.jobj [("sections", Json.jarr [Json.jobj []])]))
        = Except.ok m := by
  refine ⟨rfl, construct_total_amended.2 [("sections", Json.jarr [Json.jobj []])]
    [Json.jobj []] rfl ?_⟩
  intro x hx
  rw [List.mem_singleton] at hx
  exact ⟨[], hx⟩

/-! ### C6: the countdown state machine -/

/-- A tick delivered with no time left is a no-op (the guard
`remaining_seconds > 0` fails). -/
lemma tick_noop (base : String) (net : NetOutcome) {tw : TW}
    (h : tw.remaining_seconds ≤ 0) : tick_countdown base tw net = (tw, []) := by
  unfold tick_countdown
  rw [if_neg (not_lt.mpr h)]

/-- Any run of ticks from an expired timer is a no-op. -/
lemma runTicks_stopped (base : String) (net : NetOutcome) :
    ∀ (k : Nat) (tw : TW), tw.remaining_seconds ≤ 0 →
      runTicks base tw net k = (tw, []) := by
  intro k
  induction k with
  | zero => intro tw _; rfl
  | succ k ih =>
      intro tw h
      show (let r1 := tick_countdown base tw net
            let r2 := runTicks base r1.1 net k
            (r2.1, r1.2 ++ r2.2)) = (tw, [])
      rw [tick_noop base net h]
      dsimp only
      rw [ih tw h]
      rfl

/-- A tick with more than one second left just decrements. -/
lemma tick_dec (base : String) (net : NetOutcome) {tw : TW}
    (h : 1 < tw.remaining_seconds) :
    tick_countdown base tw net
      = ({ tw with remaining_seconds := tw.remaining_seconds - 1 }, []) := by
  unfold tick_countdown
  rw [if_pos (by omega : tw.remaining_seconds > 0)]
  dsimp only
  have hne : ¬ (tw.remaining_seconds - 1 = 0 ∧ tw.timer_started = true) :=
    fun hc => absurd hc.1 (by omega)
  rw [if_neg hne]

/-- The final tick: one second left, a started timer and a session not
yet ending — the counter lands on 0, the timer is stopped, and
`end_test` saves and quits. -/
lemma tick_last (base : String) (net : NetOutcome) {tw : TW}
    (hr : tw.remaining_seconds = 1) (hs : tw.timer_started = true)
    (he : tw.ending = false) :
    tick_countdown base tw net
      = ({ tw with remaining_seconds := 0, timer_active := false,
                   ending := true }, [Eff.saveCall, Eff.quitApp]) := by
  unfold tick_countdown
  rw [if_pos (by omega : tw.remaining_seconds > 0)]
  dsimp only
  rw [if_pos (⟨by omega, hs⟩ : tw.remaining_seconds - 1 = 0 ∧ tw.timer_started = true)]
  have he2 : TW.ending { tw with remaining_seconds := tw.remaining_seconds - 1,
                                 timer_active := false } = false := he
  rw [end_test_first base net he2]
  have h0 : tw.remaining_seconds - 1 = 0 := by omega
  rw [h0]

/-- The remaining-seconds value after one tick delivery: decremented
when positive, untouched otherwise (whatever `end_test` then does). -/
lemma tick_remaining (base : String) (net : NetOutcome) (tw : TW) :
    (tick_countdown base tw net).1.remaining_seconds
      = if 0 < tw.remaining_seconds then tw.remaining_seconds - 1
        else tw.remaining_seconds := by
  by_cases h1 : tw.remaining_seconds > 0
  · rw [if_pos h1]
    unfold tick_countdown
    rw [if_pos h1]
    dsimp only
    by_cases h2 : tw.remaining_seconds - 1 = 0 ∧ tw.timer_started = true
    · rw [if_pos h2]
      rcases Bool.eq_false_or_eq_true tw.ending with hb | hb
      · rw [end_test_already_ending base net
          (show TW.ending { tw with remaining_seconds := tw.remaining_seconds - 1,
                                    timer_active := false } = true from hb)]
      · rw [end_test_first base net
          (show TW.ending { tw with remaining_seconds := tw.remaining_seconds - 1,
                                    timer_active := false } = false from hb)]
    · rw [if_neg h2]
  · rw [if_neg h1]
    unfold tick_countdown
    rw [if_neg h1]

/-- The counter stays non-negative over any run of ticks. -/
lemma runTicks_nonneg (base : String) (net : NetOutcome) :
    ∀ (k : Nat) (tw : TW), 0 ≤ tw.remaining_seconds →
      0 ≤ (runTicks base tw net k).1.remaining_seconds := by
  intro k
  induction k with
  | zero => exact fun tw h => h
  | succ k ih =>
      intro tw h
      have h1 : 0 ≤ (tick_countdown base tw net).1.remaining_seconds := by
        rw [tick_remaining]
        split_ifs <;> omega
      exact ih (tick_countdown base tw net).1 h1

/-- The full characterisation of a run of `k` ticks from a running
timer: while `k` stays below the remaining seconds the run only
decrements the counter and emits nothing; as soon as `k` reaches it, the
counter is 0, the timer stopped, the session ending and exactly one
save-and-quit pair has been emitted. -/
lemma runTicks_run (base : String) (net : NetOutcome) :
    ∀ (k : Nat) (tw : TW), tw.timer_started = true → tw.ending = false →
      0 < tw.remaining_seconds →
      ((k : Int) < tw.remaining_seconds →
        runTicks base tw net k
          = ({ tw with remaining_seconds := tw.remaining_seconds - k }, []))
      ∧ (tw.remaining_seconds ≤ (k : Int) →
        (runTicks base tw net k).1.remaining_seconds = 0
        ∧ (runTicks base tw net k).1.timer_active = false
        ∧ (runTicks base tw net k).1.ending = true
        ∧ (runTicks base tw net k).2 = [Eff.saveCall, Eff.quitApp]) := by
  intro k
  induction k with
  | zero =>
      intro tw hs he hpos
      refine ⟨fun _ => ?_, fun hle => ?_⟩
      · show (tw, []) = _
        have h0 : tw.remaining_seconds - ((0 : Nat) : Int) = tw.remaining_seconds := by
          push_cast
          ring
        rw [h0]
      · exfalso
        push_cast at hle
        omega
  | succ k ih =>
      intro tw hs he hpos
      by_cases h1 : tw.remaining_seconds = 1
      · have htick := tick_last base net h1 hs he
        have hrun : runTicks base tw net (k + 1)
            = ({ tw with remaining_seconds := 0, timer_active := false,
                         ending := true }, [Eff.saveCall, Eff.quitApp]) := by
          show (let r1 := tick_countdown base tw net
                let r2 := runTicks base r1.1 net k
                (r2.1, r1.2 ++ r2.2)) = _
          rw [htick]
          dsimp only
          rw [runTicks_stopped base net k _ (le_refl 0)]
          rfl
        refine ⟨fun hk => ?_, fun _ => ?_⟩
        · exfalso
          push_cast at hk
          omega
        · rw [hrun]
          exact ⟨rfl, rfl, rfl, rfl⟩
      · have h2 : 1 < tw.remaining_seconds := by omega
        have htick := tick_dec base net h2
        have hstep : runTicks base tw net (k + 1)
            = runTicks base { tw with remaining_seconds := tw.remaining_seconds - 1 } net k := by
          show (let r1 := tick_countdown base tw net
                let r2 := runTicks base r1.1 net k
                (r2.1, r1.2 ++ r2.2)) = _
          rw [htick]
          rfl
        obtain ⟨ihA, ihB⟩ := ih { tw with remaining_seconds := tw.remaining_seconds - 1 }
          hs he (by dsimp only; omega)
        refine ⟨fun hk => ?_, fun hk => ?_⟩
        · have hklt : (k : Int) < TW.remaining_seconds
              { tw with remaining_seconds := tw.remaining_seconds - 1 } := by
            show (k : Int) < tw.remaining_seconds - 1
            push_cast at hk
            omega
          rw [hstep, ihA hklt]
          have h3 : tw.remaining_seconds - 1 - (k : Int)
              = tw.remaining_seconds - ((k + 1 : Nat) : Int) := by
            push_cast
            ring
          show ({ tw with remaining_seconds := tw.remaining_seconds - 1 - (k : Int) }, ([] : List Eff)) = _
          rw [h3]
        · have hkle : TW.remaining_seconds
              { tw with remaining_seconds := tw.remaining_seconds - 1 } ≤ (k : Int) := by
            show tw.remaining_seconds - 1 ≤ (k : Int)
            push_cast at hk
            omega
          rw [hstep]
          exact ihB hkle

/-- C6: the countdown state machine.  From a freshly constructed window
with duration `d` minutes: (i) when `d ≤ 0` the timer is never started
and any number of tick deliveries changes nothing (no forced
termination); (ii) a tick with time left decrements the counter by
exactly one; (iii) the counter never goes negative; (iv) when `0 < d`,
a run of `k < 60 d` ticks just counts down with no effects, and any run
of `k ≥ 60 d` ticks ends with the counter at 0, the timer stopped, the
session ending, and exactly one save-and-quit (forced termination)
emitted. -/
theorem countdown_timer_state_machine
    (base email token : String) (attempt_id : Int) (sections : List Sec)
    (title : String) (d : Int) (net : NetOutcome) (k : Nat) :
    (d ≤ 0 →
      (init_countdown_timer (initTW email token attempt_id sections title d)).timer_started
          = false
      ∧ runTicks base (init_countdown_timer (initTW email token attempt_id sections title d)) net k
          = (init_countdown_timer (initTW email token attempt_id sections title d), []))
    ∧ (∀ tw : TW, 0 < tw.remaining_seconds →
        (tick_countdown base tw net).1.remaining_seconds = tw.remaining_seconds - 1)
    ∧ 0 ≤ (runTicks base (init_countdown_timer (initTW email token attempt_id sections title d)) net k).1.remaining_seconds
    ∧ (0 < d →
        ((k : Int) < d * 60 →
          (runTicks base (init_countdown_timer (initTW email token attempt_id sections title d)) net k).1.remaining_seconds
            = d * 60 - k
          ∧ (runTicks base (init_countdown_timer (initTW email token attempt_id sections title d)) net k).2 = [])
        ∧ (d * 60 ≤ (k : Int) →
          (runTicks base (init_countdown_timer (initTW email token attempt_id sections title d)) net k).1.remaining_seconds = 0
          ∧ (runTicks base (init_countdown_timer (initTW email token attempt_id sections title d)) net k).1.timer_active = false
          ∧ (runTicks base (init_countdown_timer (initTW email token attempt_id sections title d)) net k).1.ending = true
          ∧ (runTicks base (init_countdown_timer (initTW email token attempt_id sections title d)) net k).2
              = [Eff.saveCall, Eff.quitApp])) := by
  refine ⟨fun hd => ?_, fun tw hpos => ?_, ?_, fun hd => ?_⟩
  · have hrem : (initTW email token attempt_id sections title d).remaining_seconds = 0 := by
      show max 0 d * 60 = 0
      rw [max_eq_left hd, zero_mul]
    have htw0 : init_countdown_timer (initTW email token attempt_id sections title d)
        = initTW email token attempt_id sections title d := by
      unfold init_countdown_timer
      rw [if_pos (le_of_eq hrem)]
    rw [htw0]
    exact ⟨rfl, runTicks_stopped base net k _ (le_of_eq hrem)⟩
  · rw [tick_remaining, if_pos hpos]
  · by_cases hd : d ≤ 0
    · have hrem : (initTW email token attempt_id sections title d).remaining_seconds = 0 := by
        show max 0 d * 60 = 0
        rw [max_eq_left hd, zero_mul]
      have htw0 : init_countdown_timer (initTW email token attempt_id sections title d)
          = initTW email token attempt_id sections title d := by
        unfold init_countdown_timer
        rw [if_pos (le_of_eq hrem)]
      rw [htw0]
      exact runTicks_nonneg base net k _ hrem.ge
    · have hrem : (initTW email token attempt_id sections title d).remaining_seconds = d * 60 := by
        show max 0 d * 60 = d * 60
        rw [max_eq_right (by omega : (0:Int) ≤ d)]
      exact runTicks_nonneg base net k _ (by
        rw [show (init_countdown_timer (initTW email token attempt_id sections title d)).remaining_seconds
            = (initTW email token attempt_id sections title d).remaining_seconds from by
          unfold init_countdown_timer
          split_ifs <;> rfl]
        rw [hrem]
        omega)
  · have hrem : (initTW email token attempt_id sections title d).remaining_seconds = d * 60 := by
      show max 0 d * 60 = d * 60
      rw [max_eq_right (le_of_lt hd)]
    have hpos0 : ¬ (initTW email token attempt_id sections title d).remaining_seconds ≤ 0 := by
      rw [hrem]
      omega
    have htw0 : init_countdown_timer (initTW email token attempt_id sections title d)
        = { initTW email token attempt_id sections title d with
              timer_started := true, timer_active := true } := by
      unfold init_countdown_timer
      rw [if_neg hpos0]
    have hrem0 : TW.remaining_seconds { initTW email token attempt_id sections title d with
        timer_started := true, timer_active := true } = d * 60 := hrem
    obtain ⟨hA, hB⟩ := runTicks_run base net k
      { initTW email token attempt_id sections title d with
          timer_started := true, timer_active := true }
      rfl rfl (by rw [hrem0]; omega)
    constructor
    · intro hk
      rw [htw0, hA (by rw [hrem0]; omega)]
      refine ⟨?_, rfl⟩
      show TW.remaining_seconds { initTW email token attempt_id sections title d with
          timer_started := true, timer_active := true } - (k : Int) = d * 60 - k
      rw [hrem0]
    · intro hk
      rw [htw0]
      exact hB (by rw [hrem0]; omega)

/-- Witness for C6 at concrete inputs: with a 0-minute duration the
timer never starts and three ticks change nothing; with a 1-minute
duration a tick decrements, and after 60 ticks the counter is 0, the
timer stopped, and exactly one forced termination has been emitted. -/
theorem countdown_timer_state_machine_witness :
    ((0 : Int) ≤ 0
      ∧ (init_countdown_timer (initTW "u" "t" 1 [] "Test" 0)).timer_started = false
      ∧ runTicks "b" (init_countdown_timer (initTW "u" "t" 1 [] "Test" 0)) NetOutcome.ok 3
          = (init_countdown_timer (initTW "u" "t" 1 [] "Test" 0), []))
    ∧ ((0 : Int) < 1 ∧ ((1 : Int) * 60 ≤ ((60 : Nat) : Int))
      ∧ (runTicks "b" (init_countdown_timer (initTW "u" "t" 1 [] "Test" 1)) NetOutcome.ok 60).1.remaining_seconds = 0
      ∧ (runTicks "b" (init_countdown_timer (initTW "u" "t" 1 [] "Test" 1)) NetOutcome.ok 60).1.timer_active = false
      ∧ (runTicks "b" (init_countdown_timer (initTW "u" "t" 1 [] "Test" 1)) NetOutcome.ok 60).2
          = [Eff.saveCall, Eff.quitApp]) := by
  have h1 := (countdown_timer_state_machine "b" "u" "t" 1 [] "Test" 0 NetOutcome.ok 3).1
    (le_refl 0)
  have h2 := ((countdown_timer_state_machine "b" "u" "t" 1 [] "Test" 1 NetOutcome.ok 60).2.2.2
    (by norm_num)).2 (by norm_num)
  exact ⟨⟨le_refl 0, h1.1, h1.2⟩, ⟨by norm_num, by norm_num, h2.1, h2.2.1, h2.2.2.2⟩⟩

/-! ### C1: correctness of the submission payload -/

/-- Sorting a duplicate-free list with `sorted(...)` yields a strictly
ascending list. -/
lemma insertionSort_sorted_lt {l : List Nat} (h : l.Nodup) :
    (List.insertionSort (· ≤ ·) l).Sorted (· < ·) := by
  have hs : (List.insertionSort (· ≤ ·) l).Sorted (· ≤ ·) :=
    List.sorted_insertionSort _ l
  have hp : (List.insertionSort (· ≤ ·) l).Perm l :=
    List.perm_insertionSort _ l
  have hnd : (List.insertionSort (· ≤ ·) l).Nodup := hp.nodup_iff.mpr h
  exact (List.Pairwise.and hs hnd).imp (fun hab => lt_of_le_of_ne hab.1 hab.2)

/-- Inversion of `entryFor` at an mcq entry. -/
lemma entryFor_mcq {qt : String} {stored : Ans} {m n opt : Nat}
    (h : entryFor qt stored m = some (AnswerEntry.mcqA n opt)) :
    m = n ∧ qt = "mcq" ∧ stored = Ans.anInt opt := by
  unfold entryFor at h
  split_ifs at h with h1 h2 h3 <;> cases stored <;> simp_all

/-- Inversion of `entryFor` at an msq entry. -/
lemma entryFor_msq {qt : String} {stored : Ans} {m n : Nat} {l : List Nat}
    (h : entryFor qt stored m = some (AnswerEntry.msqA n l)) :
    m = n ∧ qt = "msq" ∧ ∃ s : PySet, stored = Ans.anSet s ∧ s.val ≠ []
      ∧ l = List.insertionSort (· ≤ ·) s.val := by
  unfold entryFor at h
  split_ifs at h with h1 h2 h3
  · cases stored <;> simp_all
  · cases stored with
    | anInt x => simp_all
    | anStr t => simp_all
    | anSet s =>
        dsimp only at h
        by_cases hne : s.val ≠ []
        · rw [if_pos hne] at h
          simp only [Option.some.injEq, AnswerEntry.msqA.injEq] at h
          exact ⟨h.1, h2, s, rfl, hne, h.2.symm⟩
        · rw [if_neg hne] at h
          exact absurd h (by simp)
  · cases stored <;> dsimp only at h <;> (try split_ifs at h) <;> simp_all

/-- Inversion of `entryFor` at an open-ended entry. -/
lemma entryFor_open {qt : String} {stored : Ans} {m n : Nat} {txt : String}
    (h : entryFor qt stored m = some (AnswerEntry.openA n txt)) :
    m = n ∧ qt = "open-ended" ∧ stored = Ans.anStr txt ∧ pyStrip txt ≠ "" := by
  unfold entryFor at h
  split_ifs at h with h1 h2 h3
  · cases stored <;> simp_all
  · cases stored <;> dsimp only at h <;> (try split_ifs at h) <;> simp_all
  · cases stored with
    | anInt x => simp_all
    | anSet s => simp_all
    | anStr t =>
        dsimp only at h
        by_cases hne : pyStrip t ≠ ""
        · rw [if_pos hne] at h
          simp only [Option.some.injEq, AnswerEntry.openA.injEq] at h
          exact ⟨h.1, h3, by rw [h.2], by rw [← h.2]; exact hne⟩
        · rw [if_neg hne] at h
          exact absurd h (by simp)

/-- Any entry emitted by `entryFor ... m` carries `questionNumber m`. -/
lemma entryFor_qnum {qt : String} {stored : Ans} {m : Nat} {a : AnswerEntry}
    (h : entryFor qt stored m = some a) : a.qnum = m := by
  cases a with
  | mcqA n opt => exact ((entryFor_mcq h).1).symm
  | msqA n l => exact ((entryFor_msq h).1).symm
  | openA n t => exact ((entryFor_open h).1).symm

/-- Every entry of the inner loop's list comes from a question of the
section at the matching 0-based offset, with the matching stored answer
and a 1-based `questionNumber`. -/
lemma answersFor_mem :
    ∀ (qs : List Ques) (answers : Nat → Nat → Option Ans) (s_idx start : Nat)
      (a : AnswerEntry), a ∈ answersFor answers s_idx qs start →
      ∃ j q stored, qs.get? j = some q ∧ a.qnum = start + j + 1
        ∧ answers s_idx (start + j) = some stored
        ∧ entryFor q.qtype stored (start + j + 1) = some a := by
  intro qs
  induction qs with
  | nil =>
      intro answers s_idx start a ha
      exact absurd ha (List.not_mem_nil a)
  | cons q rest ih =>
      intro answers s_idx start a ha
      have htail : a ∈ answersFor answers s_idx rest (start + 1) →
          ∃ j q' stored, (q :: rest).get? j = some q' ∧ a.qnum = start + j + 1
            ∧ answers s_idx (start + j) = some stored
            ∧ entryFor q'.qtype stored (start + j + 1) = some a := by
        intro hmem
        obtain ⟨j, q', stored, h1, h2, h3, h4⟩ := ih answers s_idx (start + 1) a hmem
        refine ⟨j + 1, q', stored, by simpa using h1, by omega, ?_, ?_⟩
        · rw [show start + (j + 1) = start + 1 + j from by omega]
          exact h3
        · rw [show start + (j + 1) + 1 = start + 1 + j + 1 from by omega]
          exact h4
      have hun : answersFor answers s_idx (q :: rest) start
          = match answers s_idx start with
            | none => answersFor answers s_idx rest (start + 1)
            | some stored =>
              match entryFor q.qtype stored (start + 1) with
              | some e => e :: answersFor answers s_idx rest (start + 1)
              | none => answersFor answers s_idx rest (start + 1) := rfl
      rw [hun] at ha
      cases hst : answers s_idx start with
      | none =>
          rw [hst] at ha
          exact htail ha
      | some stored0 =>
          rw [hst] at ha
          dsimp only at ha
          cases hef : entryFor q.qtype stored0 (start + 1) with
          | none =>
              rw [hef] at ha
              exact htail ha
          | some e =>
              rw [hef] at ha
              rcases List.mem_cons.mp ha with hae | hae
              · subst hae
                refine ⟨0, q, stored0, rfl, by simpa using entryFor_qnum hef, ?_, ?_⟩
                · rw [Nat.add_zero]
                  exact hst
                · rw [Nat.add_zero]
                  exact hef
              · exact htail hae

/-- Entries of the inner loop's list carry strictly increasing
`questionNumber`s, all above the starting offset. -/
lemma answersFor_sorted :
    ∀ (qs : List Ques) (answers : Nat → Nat → Option Ans) (s_idx start : Nat),
      (∀ a ∈ answersFor answers s_idx qs start, start < a.qnum)
      ∧ ((answersFor answers s_idx qs start).map AnswerEntry.qnum).Sorted (· < ·) := by
  intro qs
  induction qs with
  | nil =>
      intro answers s_idx start
      exact ⟨fun a ha => absurd ha (List.not_mem_nil a), List.sorted_nil⟩
  | cons q rest ih =>
      intro answers s_idx start
      obtain ⟨ihBound, ihSorted⟩ := ih answers s_idx (start + 1)
      have hBound' : ∀ a ∈ answersFor answers s_idx rest (start + 1), start < a.qnum :=
        fun a ha => lt_trans (Nat.lt_succ_self start) (ihBound a ha)
      have hun : answersFor answers s_idx (q :: rest) start
          = match answers s_idx start with
            | none => answersFor answers s_idx rest (start + 1)
            | some stored =>
              match entryFor q.qtype stored (start + 1) with
              | some e => e :: answersFor answers s_idx rest (start + 1)
              | none => answersFor answers s_idx rest (start + 1) := rfl
      rw [hun]
      cases hst : answers s_idx start with
      | none => exact ⟨hBound', ihSorted⟩
      | some stored0 =>
          dsimp only
          cases hef : entryFor q.qtype stored0 (start + 1) with
          | none => exact ⟨hBound', ihSorted⟩
          | some e =>
              dsimp only
              have hq : e.qnum = start + 1 := entryFor_qnum hef
              constructor
              · intro a ha
                rcases List.mem_cons.mp ha with hae | hae
                · rw [hae, hq]
                  exact Nat.lt_succ_self start
                · exact hBound' a hae
              · rw [List.map_cons, List.sorted_cons]
                refine ⟨?_, ihSorted⟩
                intro b hb
                rw [List.mem_map] at hb
                obtain ⟨a, ha, hb'⟩ := hb
                rw [← hb', hq]
                exact ihBound a ha

/-- Every element of the outer loop's list is the non-empty answer list
of the section at the matching 0-based offset, with a 1-based
`sectionId`. -/
lemma sectionsFor_mem :
    ∀ (secs : List Sec) (answers : Nat → Nat → Option Ans) (start : Nat)
      (sp : SectionPayload), sp ∈ sectionsFor answers secs start →
      ∃ k sec, secs.get? k = some sec ∧ sp.sectionId = start + k + 1
        ∧ sp.answers = answersFor answers (start + k) sec.questions 0
        ∧ sp.answers ≠ [] := by
  intro secs
  induction secs with
  | nil =>
      intro answers start sp hsp
      exact absurd hsp (List.not_mem_nil sp)
  | cons sec rest ih =>
      intro answers start sp hsp
      have htail : sp ∈ sectionsFor answers rest (start + 1) →
          ∃ k sec', (sec :: rest).get? k = some sec' ∧ sp.sectionId = start + k + 1
            ∧ sp.answers = answersFor answers (start + k) sec'.questions 0
            ∧ sp.answers ≠ [] := by
        intro hmem
        obtain ⟨k, sec', h1, h2, h3, h4⟩ := ih answers (start + 1) sp hmem
        refine ⟨k + 1, sec', by simpa using h1, by omega, ?_, h4⟩
        rw [show start + (k + 1) = start + 1 + k from by omega]
        exact h3
      have hun : sectionsFor answers (sec :: rest) start
          = if answersFor answers start sec.questions 0 ≠ []
            then { sectionId := start + 1,
                   answers := answersFor answers start sec.questions 0 }
                 :: sectionsFor answers rest (start + 1)
            else sectionsFor answers rest (start + 1) := rfl
      rw [hun] at hsp
      by_cases hne : answersFor answers start sec.questions 0 ≠ []
      · rw [if_pos hne] at hsp
        rcases List.mem_cons.mp hsp with hae | hae
        · subst hae
          exact ⟨0, sec, rfl, rfl, rfl, by simpa using hne⟩
        · exact htail hae
      · rw [if_neg hne] at hsp
        exact htail hsp

/-- The outer loop's `sectionId`s are strictly increasing, all above the
starting offset. -/
lemma sectionsFor_sorted :
    ∀ (secs : List Sec) (answers : Nat → Nat → Option Ans) (start : Nat),
      (∀ sp ∈ sectionsFor answers secs start, start < sp.sectionId)
      ∧ ((sectionsFor answers secs start).map SectionPayload.sectionId).Sorted (· < ·) := by
  intro secs
  induction secs with
  | nil =>
      intro answers start
      exact ⟨fun sp hsp => absurd hsp (List.not_mem_nil sp), List.sorted_nil⟩
  | cons sec rest ih =>
      intro answers start
      obtain ⟨ihBound, ihSorted⟩ := ih answers (start + 1)
      have hBound' : ∀ sp ∈ sectionsFor answers rest (start + 1), start < sp.sectionId :=
        fun sp hsp => lt_trans (Nat.lt_succ_self start) (ihBound sp hsp)
      have hun : sectionsFor answers (sec :: rest) start
          = if answersFor answers start sec.questions 0 ≠ []
            then { sectionId := start + 1,
                   answers := answersFor answers start sec.questions 0 }
                 :: sectionsFor answers rest (start + 1)
            else sectionsFor answers rest (start + 1) := rfl
      rw [hun]
      by_cases hne : answersFor answers start sec.questions 0 ≠ []
      · rw [if_pos hne]
        constructor
        · intro sp hsp
          rcases List.mem_cons.mp hsp with hae | hae
          · rw [hae]
            exact Nat.lt_succ_self start
          · exact hBound' sp hae
        · rw [List.map_cons, List.sorted_cons]
          refine ⟨?_, ihSorted⟩
          intro b hb
          rw [List.mem_map] at hb
          obtain ⟨sp, hsp, hb'⟩ := hb
          rw [← hb']
          exact ihBound sp hsp
      · rw [if_neg hne]
        exact ⟨hBound', ihSorted⟩

/-- C1: for every state of the controller, the payload built by
`_build_answer_payload` lists sections in order (strictly increasing
1-based `sectionId`s of existing sections), omits sections with no
contributing entries, lists each section's entries in question order
(strictly increasing 1-based `questionNumber`s), and each entry exists
only for a question with a stored answer of the matching kind — with a
non-empty set, emitted strictly ascending (hence duplicate-free), for
multi-choice, and a non-blank trimmed string for free text. -/
theorem build_answer_payload_correct (tw : TW) :
    (((build_answer_payload tw).1.answerSections.map SectionPayload.sectionId).Sorted (· < ·))
    ∧ ∀ sp ∈ (build_answer_payload tw).1.answerSections,
        sp.answers ≠ []
        ∧ ((sp.answers.map AnswerEntry.qnum).Sorted (· < ·))
        ∧ ∃ k sec, tw.sections.get? k = some sec ∧ sp.sectionId = k + 1
            ∧ (∀ n opt, AnswerEntry.mcqA n opt ∈ sp.answers →
                ∃ j q, sec.questions.get? j = some q ∧ n = j + 1
                  ∧ q.qtype = "mcq" ∧ tw.answers k j = some (Ans.anInt opt))
            ∧ (∀ n l, AnswerEntry.msqA n l ∈ sp.answers →
                ∃ j q s, sec.questions.get? j = some q ∧ n = j + 1
                  ∧ q.qtype = "msq" ∧ tw.answers k j = some (Ans.anSet s)
                  ∧ s.val ≠ [] ∧ l = List.insertionSort (· ≤ ·) s.val
                  ∧ l.Sorted (· < ·))
            ∧ (∀ n txt, AnswerEntry.openA n txt ∈ sp.answers →
                ∃ j q, sec.questions.get? j = some q ∧ n = j + 1
                  ∧ q.qtype = "open-ended" ∧ tw.answers k j = some (Ans.anStr txt)
                  ∧ pyStrip txt ≠ "") := by
  have hb : (build_answer_payload tw).1.answerSections
      = sectionsFor tw.answers tw.sections 0 := rfl
  constructor
  · rw [hb]
    exact (sectionsFor_sorted tw.sections tw.answers 0).2
  · intro sp hsp
    rw [hb] at hsp
    obtain ⟨k, sec, hk, hid, hans, hne⟩ := sectionsFor_mem tw.sections tw.answers 0 sp hsp
    have hzk : 0 + k = k := Nat.zero_add k
    rw [hzk] at hans
    refine ⟨hne, ?_, k, sec, hk, by omega, ?_, ?_, ?_⟩
    · rw [hans]
      exact (answersFor_sorted sec.questions tw.answers k 0).2
    · intro n opt hmem
      rw [hans] at hmem
      obtain ⟨j, q, stored, h1, h2, h3, h4⟩ :=
        answersFor_mem sec.questions tw.answers k 0 _ hmem
      obtain ⟨hm, hqt, hstored⟩ := entryFor_mcq h4
      rw [Nat.zero_add] at h3
      rw [hstored] at h3
      exact ⟨j, q, h1, by simpa [AnswerEntry.qnum] using h2, hqt, h3⟩
    · intro n l hmem
      rw [hans] at hmem
      obtain ⟨j, q, stored, h1, h2, h3, h4⟩ :=
        answersFor_mem sec.questions tw.answers k 0 _ hmem
      obtain ⟨hm, hqt, s, hstored, hsne, hl⟩ := entryFor_msq h4
      rw [Nat.zero_add] at h3
      rw [hstored] at h3
      refine ⟨j, q, s, h1, by simpa [AnswerEntry.qnum] using h2, hqt, h3, hsne, hl, ?_⟩
      rw [hl]
      exact insertionSort_sorted_lt s.prop
    · intro n txt hmem
      rw [hans] at hmem
      obtain ⟨j, q, stored, h1, h2, h3, h4⟩ :=
        answersFor_mem sec.questions tw.answers k 0 _ hmem
      obtain ⟨hm, hqt, hstored, hts⟩ := entryFor_open h4
      rw [Nat.zero_add] at h3
      rw [hstored] at h3
      exact ⟨j, q, h1, by simpa [AnswerEntry.qnum] using h2, hqt, h3, hts⟩

/-- The concrete scenario state for the C1 witness: one section with an
msq question and an open-ended question; the user ticks options 1 and 3,
unticks 1, and types a blank-padded text. -/
def twC1 : TW :=
  on_msq_changed
    (on_msq_changed
      (on_msq_changed
        (set_open_answer
          (initTW "user@example.com" "tok" 5
            [{ title := "S1",
               questions := [{ qtype := "msq", questionText := "Q1",
                               options := ["A", "B", "C"] },
                             { qtype := "open-ended", questionText := "Q2",
                               options := [] }] }]
            "Demo" 0)
          0 1 "  x ")
        0 0 1 true)
      0 0 3 true)
    0 0 1 false

/-- Witness for C1 at the concrete scenario: the built payload contains
section 1 with entries `CorrectOptions [3]` (sorted, deduplicated) and
the blank-padded open answer, and that section's entry list satisfies
the theorem's guarantees. -/
theorem build_answer_payload_correct_witness :
    (SectionPayload.mk 1 [AnswerEntry.msqA 1 [3], AnswerEntry.openA 2 "  x "])
        ∈ (build_answer_payload twC1).1.answerSections
    ∧ (SectionPayload.mk 1 [AnswerEntry.msqA 1 [3],
        AnswerEntry.openA 2 "  x "]).answers ≠ []
    ∧ (((SectionPayload.mk 1 [AnswerEntry.msqA 1 [3],
        AnswerEntry.openA 2 "  x "]).answers.map AnswerEntry.qnum).Sorted (· < ·)) := by
  have h := (build_answer_payload_correct twC1).2
    (SectionPayload.mk 1 [AnswerEntry.msqA 1 [3], AnswerEntry.openA 2 "  x "])
    (by decide)
  exact ⟨by decide, h.1, h.2.1⟩
